import Mathlib

/-!
Shallow embedding of `Source/Core/Matrix2.js` (a 2x2 matrix type stored as a
flat 4-element array) and verification of its specification claims.

JS numbers are modelled as rationals (`ℚ`); a JS `undefined` value is
modelled as `Option.none`; a thrown `DeveloperError` is modelled as
`Except.error` carrying the message string.  The backing 4-element array
`matrix.values` is modelled by the structure `V4` with fields `e0..e3`
standing for `values[0] .. values[3]`.
-/

/-- The 4-element backing array `values` of a Matrix2: `ek` is `values[k]`. -/
structure V4 where
  e0 : ℚ
  e1 : ℚ
  e2 : ℚ
  e3 : ℚ
  deriving DecidableEq, Repr

/-- Read `values[k]` for an in-range index `k`. -/
def V4.entry (v : V4) : Fin 4 → ℚ
  | 0 => v.e0
  | 1 => v.e1
  | 2 => v.e2
  | 3 => v.e3

/-- JS read `values[q]` at an arbitrary numeric index `q`: out-of-range or
fractional indices read a missing property, i.e. `undefined` (`none`). -/
def V4.jsAt (v : V4) (q : ℚ) : Option ℚ :=
  if q = 0 then some v.e0
  else if q = 1 then some v.e1
  else if q = 2 then some v.e2
  else if q = 3 then some v.e3
  else none

/-- A Cartesian2 value: the pair `(x, y)`. -/
structure Cart2 where
  x : ℚ
  y : ℚ
  deriving DecidableEq, Repr

/-- Component of a `Cart2` at position 0 (`x`) or 1 (`y`). -/
def Cart2.pos (p : Cart2) : Fin 2 → ℚ
  | 0 => p.x
  | 1 => p.y

namespace Matrix2

/-- `Matrix2.fromComponents(c0r0, c1r0, c0r1, c1r1)` (allocating form):
stores the four arguments in order into `values[0..3]`
(`Source/Core/Matrix2.js` lines 52-62). -/
def fromComponents (column0Row0 column1Row0 column0Row1 column1Row1 : ℚ) : V4 :=
  ⟨column0Row0, column1Row0, column0Row1, column1Row1⟩

/-- `Matrix2.clone(matrix)` (allocating form): copies the four components
(lines 101-115). -/
def clone (matrix : V4) : V4 :=
  ⟨matrix.e0, matrix.e1, matrix.e2, matrix.e3⟩

/-- `Matrix2.getColumn(matrix, index)` after the guards have passed with a
valid index 0 or 1: `x = values[startIndex]`, `y = values[startIndex + 2]`
with `startIndex = index` (lines 140-145). -/
def getColumn (matrix : V4) (index : Fin 2) : Cart2 :=
  if index = 0 then ⟨matrix.e0, matrix.e2⟩ else ⟨matrix.e1, matrix.e3⟩

/-- `Matrix2.getRow(matrix, index)` after the guards: `x = values[startIndex]`,
`y = values[startIndex + 1]` with `startIndex = index * 2` (lines 208-213). -/
def getRow (matrix : V4) (index : Fin 2) : Cart2 :=
  if index = 0 then ⟨matrix.e0, matrix.e1⟩ else ⟨matrix.e2, matrix.e3⟩

/-- `Matrix2.setColumn(matrix, index, cartesian)` after the guards: clone,
then overwrite `values[index]` and `values[index + 2]` (lines 178-182). -/
def setColumn (matrix : V4) (index : Fin 2) (cartesian : Cart2) : V4 :=
  if index = 0 then ⟨cartesian.x, matrix.e1, cartesian.y, matrix.e3⟩
  else ⟨matrix.e0, cartesian.x, matrix.e2, cartesian.y⟩

/-- `Matrix2.setRow(matrix, index, cartesian)` after the guards: clone, then
overwrite `values[index * 2]` and `values[index * 2 + 1]` (lines 247-251). -/
def setRow (matrix : V4) (index : Fin 2) (cartesian : Cart2) : V4 :=
  if index = 0 then ⟨cartesian.x, cartesian.y, matrix.e2, matrix.e3⟩
  else ⟨matrix.e0, matrix.e1, cartesian.x, cartesian.y⟩

/-- `Matrix2.multiply(left, right)` (allocating form), lines 276-283. -/
def multiply (left right : V4) : V4 :=
  ⟨left.e0 * right.e0 + left.e1 * right.e2,
   left.e0 * right.e1 + left.e1 * right.e3,
   left.e2 * right.e0 + left.e3 * right.e2,
   left.e2 * right.e1 + left.e3 * right.e3⟩

/-- `Matrix2.multiplyByVector(matrix, cartesian)` (allocating form),
lines 314-319. -/
def multiplyByVector (matrix : V4) (cartesian : Cart2) : Cart2 :=
  ⟨matrix.e0 * cartesian.x + matrix.e1 * cartesian.y,
   matrix.e2 * cartesian.x + matrix.e3 * cartesian.y⟩

/-- `Matrix2.multiplyByScalar(matrix, scalar)` (allocating form),
lines 346-349. -/
def multiplyByScalar (matrix : V4) (scalar : ℚ) : V4 :=
  ⟨matrix.e0 * scalar, matrix.e1 * scalar, matrix.e2 * scalar, matrix.e3 * scalar⟩

/-- `Matrix2.negate(matrix)` (allocating form), lines 374-377. -/
def negate (matrix : V4) : V4 :=
  ⟨-matrix.e0, -matrix.e1, -matrix.e2, -matrix.e3⟩

/-- `Matrix2.transpose(matrix)` (allocating form), lines 402-409. -/
def transpose (matrix : V4) : V4 :=
  ⟨matrix.e0, matrix.e2, matrix.e1, matrix.e3⟩

/-- `Matrix2.fromRowMajorArray(values)` (allocating form) after the
array guard: stores `[values[0], values[2], values[1], values[3]]`
(lines 81-82), reading with JS out-of-range semantics. -/
def fromRowMajorArray (values : List ℚ) : Option ℚ × Option ℚ × Option ℚ × Option ℚ :=
  (values.get? 0, values.get? 2, values.get? 1, values.get? 3)

end Matrix2

/-- A Matrix2 JS object: the `values` array plus whether `Object.freeze` was
applied to the object.  `Object.freeze` makes the object's own property
slots (here the `values` reference) non-writable; it does not reach the
elements of the array that `values` points to. -/
structure JsMatrix2 where
  frozen : Bool
  values : V4
  deriving DecidableEq, Repr

/-- A JS element write `m.values[k] = x`.  It goes through the (writable)
array regardless of `m.frozen`, because `Object.freeze` is shallow: only the
`values` property slot of the object is frozen, not the array behind it. -/
def JsMatrix2.writeElem (m : JsMatrix2) (k : Fin 4) (x : ℚ) : JsMatrix2 :=
  match k with
  | 0 => { m with values := { m.values with e0 := x } }
  | 1 => { m with values := { m.values with e1 := x } }
  | 2 => { m with values := { m.values with e2 := x } }
  | 3 => { m with values := { m.values with e3 := x } }

namespace Matrix2

/-- `Matrix2.fromComponents(c0r0, c1r0, c0r1, c1r1, result?)` at the JS
object level (lines 52-62): with no `result`, allocates a fresh unfrozen
object; with a `result`, performs the four element writes
`result.values[0] = c0r0; ...; result.values[3] = c1r1` on it and returns it. -/
def fromComponentsJs (column0Row0 column1Row0 column0Row1 column1Row1 : ℚ)
    (result : Option JsMatrix2) : JsMatrix2 :=
  match result with
  | none => ⟨false, fromComponents column0Row0 column1Row0 column0Row1 column1Row1⟩
  | some r =>
      ((((r.writeElem 0 column0Row0).writeElem 1 column1Row0).writeElem
          2 column0Row1).writeElem 3 column1Row1)

/-- `Matrix2.IDENTITY = Object.freeze(Matrix2.fromComponents(1.0, 0.0, 0.0, 1.0))`
(line 497): the allocated object with the frozen flag set. -/
def IDENTITY : JsMatrix2 :=
  { fromComponentsJs 1 0 0 1 none with frozen := true }

end Matrix2

/-- The flat-storage index of the component reported for row `r`, column `c`
by `getRow r` (position `c`) and `getColumn c` (position `r`): both read
`values[r*2 + c]`. -/
def rcIndex (r c : Fin 2) : Fin 4 :=
  ⟨r.val * 2 + c.val, by omega⟩

/-!
Heap model for the "optional result parameter" call mode.  Matrix backing
arrays live at addresses `ℕ` in a heap `σ : ℕ → V4`, Cartesian2 objects at
addresses `ℕ` in a heap `τ : ℕ → Cart2`.  Each `...R` definition below
replays the result-branch of the corresponding JS function statement by
statement: every array read `matrix.values[k]` is a read of the heap at the
moment the statement runs, and every `result.values[k] = x` is a heap write.
Passing the same address for an input and `result` is exactly the aliased
call `transpose(M, M)` etc. -/

/-- Heap write `heap[a].values[0] := x`. -/
def hwrite0 (σ : ℕ → V4) (a : ℕ) (x : ℚ) : ℕ → V4 :=
  fun b => if b = a then { σ a with e0 := x } else σ b

/-- Heap write `heap[a].values[1] := x`. -/
def hwrite1 (σ : ℕ → V4) (a : ℕ) (x : ℚ) : ℕ → V4 :=
  fun b => if b = a then { σ a with e1 := x } else σ b

/-- Heap write `heap[a].values[2] := x`. -/
def hwrite2 (σ : ℕ → V4) (a : ℕ) (x : ℚ) : ℕ → V4 :=
  fun b => if b = a then { σ a with e2 := x } else σ b

/-- Heap write `heap[a].values[3] := x`. -/
def hwrite3 (σ : ℕ → V4) (a : ℕ) (x : ℚ) : ℕ → V4 :=
  fun b => if b = a then { σ a with e3 := x } else σ b

/-- Heap write `heap[a].x := v` on a Cartesian2 heap. -/
def hwriteX (τ : ℕ → Cart2) (a : ℕ) (v : ℚ) : ℕ → Cart2 :=
  fun b => if b = a then { τ a with x := v } else τ b

/-- Heap write `heap[a].y := v` on a Cartesian2 heap. -/
def hwriteY (τ : ℕ → Cart2) (a : ℕ) (v : ℚ) : ℕ → Cart2 :=
  fun b => if b = a then { τ a with y := v } else τ b

namespace Matrix2

/-- Result branch of `fromComponents` (lines 57-61): four writes of the
arguments into `result.values`. -/
def fromComponentsR (column0Row0 column1Row0 column0Row1 column1Row1 : ℚ)
    (res : ℕ) (σ : ℕ → V4) : ℕ → V4 :=
  hwrite3 (hwrite2 (hwrite1 (hwrite0 σ res column0Row0) res column1Row0)
    res column0Row1) res column1Row1

/-- Allocating branch of `fromRowMajorArray` on a 4-element input array
(lines 81-82): components re-mapped as `[v0, v2, v1, v3]`. -/
def fromRowMajorValues (values : V4) : V4 :=
  ⟨values.e0, values.e2, values.e1, values.e3⟩

/-- Result branch of `fromRowMajorArray` (lines 84-87): four writes into
`result.values`, reading the input array positions 0, 2, 1, 3. -/
def fromRowMajorArrayR (values : V4) (res : ℕ) (σ : ℕ → V4) : ℕ → V4 :=
  hwrite3 (hwrite2 (hwrite1 (hwrite0 σ res values.e0) res values.e2)
    res values.e1) res values.e3

/-- Result branch of `clone` (lines 108-114): element-by-element copy, each
read happening after the previous write (the source caches only the array
references, not the values). -/
def cloneR (m res : ℕ) (σ : ℕ → V4) : ℕ → V4 :=
  let σ0 := hwrite0 σ res ((σ m).e0)
  let σ1 := hwrite1 σ0 res ((σ0 m).e1)
  let σ2 := hwrite2 σ1 res ((σ1 m).e2)
  hwrite3 σ2 res ((σ2 m).e3)

/-- Result branch of `getColumn` (lines 140-149): `x` and `y` are read from
the matrix before either is written to the result Cartesian. -/
def getColumnR (m : ℕ) (index : Fin 2) (res : ℕ) (σ : ℕ → V4)
    (τ : ℕ → Cart2) : ℕ → Cart2 :=
  let x := if index = 0 then (σ m).e0 else (σ m).e1
  let y := if index = 0 then (σ m).e2 else (σ m).e3
  hwriteY (hwriteX τ res x) res y

/-- Result branch of `getRow` (lines 208-217). -/
def getRowR (m : ℕ) (index : Fin 2) (res : ℕ) (σ : ℕ → V4)
    (τ : ℕ → Cart2) : ℕ → Cart2 :=
  let x := if index = 0 then (σ m).e0 else (σ m).e2
  let y := if index = 0 then (σ m).e1 else (σ m).e3
  hwriteY (hwriteX τ res x) res y

/-- Result branch of `setColumn` (lines 178-182): `result = clone(matrix,
result)` followed by the two column writes at `index` and `index + 2`. -/
def setColumnR (m : ℕ) (index : Fin 2) (cartesian : Cart2) (res : ℕ)
    (σ : ℕ → V4) : ℕ → V4 :=
  let σc := cloneR m res σ
  let σ1 := if index = 0 then hwrite0 σc res cartesian.x
            else hwrite1 σc res cartesian.x
  if index = 0 then hwrite2 σ1 res cartesian.y else hwrite3 σ1 res cartesian.y

/-- Result branch of `setRow` (lines 247-251): clone followed by the two row
writes at `index * 2` and `index * 2 + 1`. -/
def setRowR (m : ℕ) (index : Fin 2) (cartesian : Cart2) (res : ℕ)
    (σ : ℕ → V4) : ℕ → V4 :=
  let σc := cloneR m res σ
  let σ1 := if index = 0 then hwrite0 σc res cartesian.x
            else hwrite2 σc res cartesian.x
  if index = 0 then hwrite1 σ1 res cartesian.y else hwrite3 σ1 res cartesian.y

/-- Result branch of `multiply` (lines 274-291): all eight operand reads
happen into locals before the four result writes. -/
def multiplyR (l rt res : ℕ) (σ : ℕ → V4) : ℕ → V4 :=
  let column0Row0 := (σ l).e0 * (σ rt).e0 + (σ l).e1 * (σ rt).e2
  let column1Row0 := (σ l).e0 * (σ rt).e1 + (σ l).e1 * (σ rt).e3
  let column0Row1 := (σ l).e2 * (σ rt).e0 + (σ l).e3 * (σ rt).e2
  let column1Row1 := (σ l).e2 * (σ rt).e1 + (σ l).e3 * (σ rt).e3
  hwrite3 (hwrite2 (hwrite1 (hwrite0 σ res column0Row0) res column1Row0)
    res column0Row1) res column1Row1

/-- Result branch of `multiplyByVector` (lines 314-323): `x` and `y` are
computed before either write to the result Cartesian. -/
def multiplyByVectorR (m c res : ℕ) (σ : ℕ → V4) (τ : ℕ → Cart2) :
    ℕ → Cart2 :=
  let x := (σ m).e0 * (τ c).x + (σ m).e1 * (τ c).y
  let y := (σ m).e2 * (τ c).x + (σ m).e3 * (τ c).y
  hwriteY (hwriteX τ res x) res y

/-- Result branch of `multiplyByScalar` (lines 352-355): element-by-element,
each read after the previous write. -/
def multiplyByScalarR (m : ℕ) (scalar : ℚ) (res : ℕ) (σ : ℕ → V4) :
    ℕ → V4 :=
  let σ0 := hwrite0 σ res ((σ m).e0 * scalar)
  let σ1 := hwrite1 σ0 res ((σ0 m).e1 * scalar)
  let σ2 := hwrite2 σ1 res ((σ1 m).e2 * scalar)
  hwrite3 σ2 res ((σ2 m).e3 * scalar)

/-- Result branch of `negate` (lines 380-383): element-by-element, each read
after the previous write. -/
def negateR (m res : ℕ) (σ : ℕ → V4) : ℕ → V4 :=
  let σ0 := hwrite0 σ res (-(σ m).e0)
  let σ1 := hwrite1 σ0 res (-(σ0 m).e1)
  let σ2 := hwrite2 σ1 res (-(σ1 m).e2)
  hwrite3 σ2 res (-(σ2 m).e3)

/-- Result branch of `transpose` (lines 402-416): the four reads into locals
precede the four writes. -/
def transposeR (m res : ℕ) (σ : ℕ → V4) : ℕ → V4 :=
  let column0Row0 := (σ m).e0
  let column1Row0 := (σ m).e2
  let column0Row1 := (σ m).e1
  let column1Row1 := (σ m).e3
  hwrite3 (hwrite2 (hwrite1 (hwrite0 σ res column0Row0) res column1Row0)
    res column0Row1) res column1Row1

/-- `Matrix2.getColumn(matrix, index)` with its guards (lines 131-150):
absent matrix or absent/non-numeric index, or index outside `[0, 1]`,
throws; otherwise reads `values[index]` and `values[index + 2]` with JS
array-read semantics (a fractional in-range index reads `undefined`). -/
def getColumnJs (matrix : Option V4) (index : Option ℚ) :
    Except String (Option ℚ × Option ℚ) :=
  match matrix with
  | none => .error "matrix is required."
  | some m =>
    match index with
    | none => .error "index is required and must be 0 or 1."
    | some i =>
      if i < 0 ∨ i > 1 then .error "index is required and must be 0 or 1."
      else .ok (m.jsAt i, m.jsAt (i + 2))

/-- `Matrix2.getRow(matrix, index)` with its guards (lines 199-218):
`startIndex = index * 2`, reads `values[startIndex]` and
`values[startIndex + 1]`. -/
def getRowJs (matrix : Option V4) (index : Option ℚ) :
    Except String (Option ℚ × Option ℚ) :=
  match matrix with
  | none => .error "matrix is required."
  | some m =>
    match index with
    | none => .error "index is required and must be 0 or 1."
    | some i =>
      if i < 0 ∨ i > 1 then .error "index is required and must be 0 or 1."
      else .ok (m.jsAt (i * 2), m.jsAt (i * 2 + 1))

/-- A JS array as an object keyed by numeric indices, for the setters whose
post-guard writes may target a fractional key. -/
def JsArr : Type := ℚ → Option ℚ

/-- The JS array holding the four components of a matrix. -/
def V4.toJsArr (v : V4) : JsArr := fun q => v.jsAt q

/-- JS array element write at an arbitrary numeric key. -/
def jsArrWrite (a : JsArr) (k : ℚ) (x : ℚ) : JsArr :=
  fun q => if q = k then some x else a q

/-- `Matrix2.setColumn(matrix, index, cartesian)` with its guards (lines
168-183, allocating clone): after the guards, clones the matrix and writes
`cartesian.x` at key `index` and `cartesian.y` at key `index + 2`. -/
def setColumnJs (matrix : Option V4) (index : Option ℚ)
    (cartesian : Option Cart2) : Except String JsArr :=
  match matrix with
  | none => .error "matrix is required"
  | some m =>
    match cartesian with
    | none => .error "cartesian is required"
    | some cart =>
      match index with
      | none => .error "index is required and must be 0 or 1."
      | some i =>
        if i < 0 ∨ i > 1 then .error "index is required and must be 0 or 1."
        else .ok (jsArrWrite (jsArrWrite (V4.toJsArr m) i cart.x) (i + 2) cart.y)

/-- `Matrix2.setRow(matrix, index, cartesian)` with its guards (lines
236-252): `startIndex = index * 2`, writes at keys `startIndex` and
`startIndex + 1`. -/
def setRowJs (matrix : Option V4) (index : Option ℚ)
    (cartesian : Option Cart2) : Except String JsArr :=
  match matrix with
  | none => .error "matrix is required"
  | some m =>
    match cartesian with
    | none => .error "cartesian is required"
    | some cart =>
      match index with
      | none => .error "index is required and must be 0 or 1."
      | some i =>
        if i < 0 ∨ i > 1 then .error "index is required and must be 0 or 1."
        else .ok (jsArrWrite (jsArrWrite (V4.toJsArr m) (i * 2) cart.x)
          (i * 2 + 1) cart.y)

/-- `Matrix2.fromRowMajorArray(values)` with its guard (lines 75-89,
allocating branch): throws exactly when `values` is not an array
(`Array.isArray` fails, modelled by `none`); the length is never checked, so
a short array yields `undefined` components. -/
def fromRowMajorArrayJs (values : Option (List ℚ)) :
    Except String (Option ℚ × Option ℚ × Option ℚ × Option ℚ) :=
  match values with
  | none => .error "values must be an array"
  | some l => .ok (fromRowMajorArray l)

/-- `Matrix2.equals(left, right)` (lines 428-442) over a heap of Matrix2
objects at addresses `ℕ`: reference identity (`left === right`) first, then
the absence checks, then exact componentwise comparison.  The function is
total — the source has no throw path. -/
def equalsJs (σ : ℕ → V4) (left right : Option ℕ) : Bool :=
  if left = right then true
  else
    match left, right with
    | none, _ => false
    | _, none => false
    | some a, some b =>
      decide ((σ a).e0 = (σ b).e0) && decide ((σ a).e1 = (σ b).e1) &&
      decide ((σ a).e2 = (σ b).e2) && decide ((σ a).e3 = (σ b).e3)

/-- `Matrix2.equalsEpsilon(left, right, epsilon)` (lines 457-474): the
epsilon guard runs first, then reference identity, then absence checks,
then componentwise `abs(a - b) <= epsilon`. -/
def equalsEpsilonJs (σ : ℕ → V4) (left right : Option ℕ)
    (epsilon : Option ℚ) : Except String Bool :=
  match epsilon with
  | none => .error "epsilon is required and must be a number"
  | some e =>
    if left = right then .ok true
    else
      match left, right with
      | none, _ => .ok false
      | _, none => .ok false
      | some a, some b =>
        .ok (decide (|(σ a).e0 - (σ b).e0| ≤ e) &&
             decide (|(σ a).e1 - (σ b).e1| ≤ e) &&
             decide (|(σ a).e2 - (σ b).e2| ≤ e) &&
             decide (|(σ a).e3 - (σ b).e3| ≤ e))

end Matrix2

/-- The string a JS number-to-string coercion produces for an integral
number: the decimal digits with no decimal point.  The formatter argument
of `Matrix2.toStr` abstracts the full JS coercion; this instance covers the
integral components used in the concrete scenarios. -/
def jsIntegerString (q : ℚ) : String :=
  toString q.num

/-- One rendered line of the `toString` output: a parenthesized,
comma-space-separated pair. -/
def rowLine (fmt : ℚ → String) (p : Cart2) : String :=
  "(" ++ fmt p.x ++ ", " ++ fmt p.y ++ ")"

namespace Matrix2

/-- `Matrix2.toString(matrix)` (lines 489-490), parametric in the JS
number-to-string coercion `fmt` applied by the `+` concatenations:
`'(' + values[0] + ', ' + values[1] + ')\n(' + values[2] + ', ' +
values[3] + ')'`. -/
def toStr (fmt : ℚ → String) (matrix : V4) : String :=
  "(" ++ fmt matrix.e0 ++ ", " ++ fmt matrix.e1 ++ ")\n(" ++
    fmt matrix.e2 ++ ", " ++ fmt matrix.e3 ++ ")"

end Matrix2

/-- C1: the four component formulas of `multiply` together with the concrete
product check `fromComponents(1,2,3,4) * fromComponents(5,6,7,8) =
fromComponents(19,22,43,50)`. -/
theorem C1_multiply_components :
    (∀ L R : V4,
      (Matrix2.multiply L R).entry 0 = L.entry 0 * R.entry 0 + L.entry 1 * R.entry 2 ∧
      (Matrix2.multiply L R).entry 1 = L.entry 0 * R.entry 1 + L.entry 1 * R.entry 3 ∧
      (Matrix2.multiply L R).entry 2 = L.entry 2 * R.entry 0 + L.entry 3 * R.entry 2 ∧
      (Matrix2.multiply L R).entry 3 = L.entry 2 * R.entry 1 + L.entry 3 * R.entry 3) ∧
    Matrix2.multiply (Matrix2.fromComponents 1 2 3 4) (Matrix2.fromComponents 5 6 7 8) =
      Matrix2.fromComponents 19 22 43 50 := by
  refine ⟨fun L R => ⟨rfl, rfl, rfl, rfl⟩, ?_⟩
  simp only [Matrix2.multiply, Matrix2.fromComponents, V4.mk.injEq]
  norm_num

/-- C8: multiplying by the identity constant on either side leaves the four
components of any matrix unchanged. -/
theorem C8_multiply_identity (v : V4) :
    Matrix2.multiply Matrix2.IDENTITY.values v = v ∧
    Matrix2.multiply v Matrix2.IDENTITY.values = v := by
  cases v with
  | mk a b c d =>
    constructor <;>
      · simp only [Matrix2.multiply, Matrix2.IDENTITY, Matrix2.fromComponentsJs,
          Matrix2.fromComponents, V4.mk.injEq]
        norm_num

/-- C3 counterexample: for `fromComponents(1,2,3,4)` with `r = 0`, `c = 1`,
both accessors report `values[1] = 2`, but the claimed formula
`values[c*2 + r]` names `values[2] = 3`. -/
theorem C3_counterexample :
    (Matrix2.getColumn (Matrix2.fromComponents 1 2 3 4) 1).pos 0 ≠
      (Matrix2.fromComponents 1 2 3 4).entry ⟨1 * 2 + 0, by omega⟩ ∧
    (Matrix2.getRow (Matrix2.fromComponents 1 2 3 4) 0).pos 1 ≠
      (Matrix2.fromComponents 1 2 3 4).entry ⟨1 * 2 + 0, by omega⟩ := by
  constructor <;> decide

/-- C3 (amended): for every matrix and all `r c : Fin 2`, the value at
position `r` of `getColumn c` and at position `c` of `getRow r` is the
backing-storage element `values[r*2 + c]`. -/
theorem C3_row_column_addressing (v : V4) (r c : Fin 2) :
    (Matrix2.getColumn v c).pos r = v.entry (rcIndex r c) ∧
    (Matrix2.getRow v r).pos c = v.entry (rcIndex r c) := by
  fin_cases r <;> fin_cases c <;>
    simp [Matrix2.getColumn, Matrix2.getRow, Cart2.pos, V4.entry, rcIndex]

/-- C3 witness: the amended addressing law instantiated at
`fromComponents(1,2,3,4)`, `r = 0`, `c = 1`, where the reported value is 2. -/
theorem C3_row_column_addressing_witness :
    (Matrix2.getColumn (Matrix2.fromComponents 1 2 3 4) 1).pos 0 =
      (Matrix2.fromComponents 1 2 3 4).entry (rcIndex 0 1) ∧
    (Matrix2.getRow (Matrix2.fromComponents 1 2 3 4) 0).pos 1 =
      (Matrix2.fromComponents 1 2 3 4).entry (rcIndex 0 1) :=
  C3_row_column_addressing (Matrix2.fromComponents 1 2 3 4) 0 1

/-- C2: for every operation with an optional result parameter, the
result-mode call — at arbitrary heap addresses, so in particular when an
input address is passed as the result address, e.g. `transpose(M, M)` —
leaves in the result object exactly the component values the allocating
call returns. -/
theorem C2_result_mode_matches_allocating :
    (∀ (a b c d : ℚ) (r : JsMatrix2),
      (Matrix2.fromComponentsJs a b c d (some r)).values =
        Matrix2.fromComponents a b c d) ∧
    (∀ (vals : V4) (res : ℕ) (σ : ℕ → V4),
      Matrix2.fromRowMajorArrayR vals res σ res = Matrix2.fromRowMajorValues vals) ∧
    (∀ (m res : ℕ) (σ : ℕ → V4),
      Matrix2.cloneR m res σ res = Matrix2.clone (σ m)) ∧
    (∀ (m : ℕ) (idx : Fin 2) (res : ℕ) (σ : ℕ → V4) (τ : ℕ → Cart2),
      Matrix2.getColumnR m idx res σ τ res = Matrix2.getColumn (σ m) idx) ∧
    (∀ (m : ℕ) (idx : Fin 2) (res : ℕ) (σ : ℕ → V4) (τ : ℕ → Cart2),
      Matrix2.getRowR m idx res σ τ res = Matrix2.getRow (σ m) idx) ∧
    (∀ (m : ℕ) (idx : Fin 2) (cart : Cart2) (res : ℕ) (σ : ℕ → V4),
      Matrix2.setColumnR m idx cart res σ res = Matrix2.setColumn (σ m) idx cart) ∧
    (∀ (m : ℕ) (idx : Fin 2) (cart : Cart2) (res : ℕ) (σ : ℕ → V4),
      Matrix2.setRowR m idx cart res σ res = Matrix2.setRow (σ m) idx cart) ∧
    (∀ (l rt res : ℕ) (σ : ℕ → V4),
      Matrix2.multiplyR l rt res σ res = Matrix2.multiply (σ l) (σ rt)) ∧
    (∀ (m c res : ℕ) (σ : ℕ → V4) (τ : ℕ → Cart2),
      Matrix2.multiplyByVectorR m c res σ τ res =
        Matrix2.multiplyByVector (σ m) (τ c)) ∧
    (∀ (m : ℕ) (s : ℚ) (res : ℕ) (σ : ℕ → V4),
      Matrix2.multiplyByScalarR m s res σ res = Matrix2.multiplyByScalar (σ m) s) ∧
    (∀ (m res : ℕ) (σ : ℕ → V4),
      Matrix2.negateR m res σ res = Matrix2.negate (σ m)) ∧
    (∀ (m res : ℕ) (σ : ℕ → V4),
      Matrix2.transposeR m res σ res = Matrix2.transpose (σ m)) := by
  refine ⟨?_, ?_, ?_, ?_, ?_, ?_, ?_, ?_, ?_, ?_, ?_, ?_⟩
  · intro a b c d r
    simp [Matrix2.fromComponentsJs, JsMatrix2.writeElem, Matrix2.fromComponents]
  · intro vals res σ
    simp [Matrix2.fromRowMajorArrayR, hwrite0, hwrite1, hwrite2, hwrite3,
      Matrix2.fromRowMajorValues]
  · intro m res σ
    by_cases h : m = res <;>
      simp [Matrix2.cloneR, hwrite0, hwrite1, hwrite2, hwrite3, Matrix2.clone, h]
  · intro m idx res σ τ
    fin_cases idx <;>
      simp [Matrix2.getColumnR, hwriteX, hwriteY, Matrix2.getColumn]
  · intro m idx res σ τ
    fin_cases idx <;>
      simp [Matrix2.getRowR, hwriteX, hwriteY, Matrix2.getRow]
  · intro m idx cart res σ
    fin_cases idx <;> by_cases h : m = res <;>
      simp [Matrix2.setColumnR, Matrix2.cloneR, hwrite0, hwrite1, hwrite2,
        hwrite3, Matrix2.setColumn, h]
  · intro m idx cart res σ
    fin_cases idx <;> by_cases h : m = res <;>
      simp [Matrix2.setRowR, Matrix2.cloneR, hwrite0, hwrite1, hwrite2,
        hwrite3, Matrix2.setRow, h]
  · intro l rt res σ
    simp [Matrix2.multiplyR, hwrite0, hwrite1, hwrite2, hwrite3, Matrix2.multiply]
  · intro m c res σ τ
    simp [Matrix2.multiplyByVectorR, hwriteX, hwriteY, Matrix2.multiplyByVector]
  · intro m s res σ
    by_cases h : m = res <;>
      simp [Matrix2.multiplyByScalarR, hwrite0, hwrite1, hwrite2, hwrite3,
        Matrix2.multiplyByScalar, h]
  · intro m res σ
    by_cases h : m = res <;>
      simp [Matrix2.negateR, hwrite0, hwrite1, hwrite2, hwrite3,
        Matrix2.negate, h]
  · intro m res σ
    simp [Matrix2.transposeR, hwrite0, hwrite1, hwrite2, hwrite3,
      Matrix2.transpose]

/-- C4: evaluation at the failing input `index = 0.5`.  The guard
`typeof index !== 'number' || index < 0 || index > 1` accepts the
non-integer 0.5 that the claim (and the source's own `@exception`
documentation) says must be rejected: `getColumn` returns a Cartesian of
`undefined`s, `getRow` returns the interior components `values[1]`,
`values[2]`, and both setters return a written array instead of throwing. -/
theorem C4_half_index_not_rejected :
    Matrix2.getColumnJs (some (Matrix2.fromComponents 1 2 3 4)) (some (1/2)) =
      .ok (none, none) ∧
    Matrix2.getRowJs (some (Matrix2.fromComponents 1 2 3 4)) (some (1/2)) =
      .ok (some 2, some 3) ∧
    (Matrix2.setColumnJs (some (Matrix2.fromComponents 1 2 3 4)) (some (1/2))
      (some ⟨9, 9⟩)).isOk = true ∧
    (Matrix2.setRowJs (some (Matrix2.fromComponents 1 2 3 4)) (some (1/2))
      (some ⟨9, 9⟩)).isOk = true := by
  refine ⟨?_, ?_, ?_, ?_⟩ <;>
    · simp only [Matrix2.getColumnJs, Matrix2.getRowJs, Matrix2.setColumnJs,
        Matrix2.setRowJs, Matrix2.fromComponents, V4.jsAt]
      norm_num [Except.isOk, Except.toBool]

/-- C5: the identity constant starts as `fromComponents(1,0,0,1)` and is
frozen, yet the element writes of `fromComponents(9,9,9,9, IDENTITY)` go
through — `Object.freeze` is shallow, so the backing array of the shared
constant is silently overwritten, exactly what the claim says cannot
happen. -/
theorem C5_frozen_identity_still_mutated :
    Matrix2.IDENTITY.frozen = true ∧
    Matrix2.IDENTITY.values = Matrix2.fromComponents 1 0 0 1 ∧
    (Matrix2.fromComponentsJs 9 9 9 9 (some Matrix2.IDENTITY)).values =
      Matrix2.fromComponents 9 9 9 9 ∧
    (Matrix2.fromComponentsJs 9 9 9 9 (some Matrix2.IDENTITY)).values ≠
      Matrix2.IDENTITY.values := by
  refine ⟨rfl, rfl, rfl, ?_⟩
  simp [Matrix2.fromComponentsJs, Matrix2.IDENTITY, JsMatrix2.writeElem,
    Matrix2.fromComponents]

/-- C6 counterexample: the 3-element array `[1, 2, 3]` is not rejected —
`fromRowMajorArray` only checks `Array.isArray`, so the call succeeds and
the fourth component is `undefined`. -/
theorem C6_counterexample :
    Matrix2.fromRowMajorArrayJs (some [1, 2, 3]) =
      .ok (some 1, some 3, some 2, none) := by
  rfl

/-- C6 (amended): `fromRowMajorArray` raises the error exactly when the
input is not an array; the length of the array is never checked. -/
theorem C6_error_iff_not_array (values : Option (List ℚ)) :
    (∃ msg, Matrix2.fromRowMajorArrayJs values = .error msg) ↔ values = none := by
  cases values <;> simp [Matrix2.fromRowMajorArrayJs]

/-- C7: `equals` returns true on an identical reference (including two
absent operands), false when exactly one side is absent, and otherwise true
exactly when all four components agree; it is a total function — the source
has no throw path. -/
theorem C7_equals_semantics (σ : ℕ → V4) (a b : ℕ) :
    Matrix2.equalsJs σ (some a) (some a) = true ∧
    Matrix2.equalsJs σ none none = true ∧
    Matrix2.equalsJs σ (some a) none = false ∧
    Matrix2.equalsJs σ none (some a) = false ∧
    (Matrix2.equalsJs σ (some a) (some b) = true ↔ σ a = σ b) := by
  refine ⟨by simp [Matrix2.equalsJs], by simp [Matrix2.equalsJs],
    by simp [Matrix2.equalsJs], by simp [Matrix2.equalsJs], ?_⟩
  by_cases hab : a = b
  · subst hab
    simp [Matrix2.equalsJs]
  · have : (some a = some b) = False := by simp [hab]
    constructor
    · intro h
      simp only [Matrix2.equalsJs, this, if_false, Bool.and_eq_true,
        decide_eq_true_eq] at h
      obtain ⟨⟨⟨h0, h1⟩, h2⟩, h3⟩ := h
      cases hσa : σ a
      cases hσb : σ b
      simp_all
    · intro h
      simp [Matrix2.equalsJs, this, h]

/-- C10: the epsilon guard runs before the reference-identity shortcut, and
the shortcut runs before the componentwise test — `equalsEpsilon(M, M, e)`
is true for every numeric epsilon including negative ones, while two
distinct instances with identical components fail for every negative
epsilon, and a missing epsilon throws even on an identical reference. -/
theorem C10_equalsEpsilon_order (σ : ℕ → V4) (a b : ℕ) (e : ℚ) :
    Matrix2.equalsEpsilonJs σ (some a) (some a) (some e) = .ok true ∧
    Matrix2.equalsEpsilonJs σ (some a) (some a) none =
      .error "epsilon is required and must be a number" ∧
    (a ≠ b → σ a = σ b → e < 0 →
      Matrix2.equalsEpsilonJs σ (some a) (some b) (some e) = .ok false) := by
  refine ⟨by simp [Matrix2.equalsEpsilonJs], rfl, ?_⟩
  intro hab hcomp he
  have hsome : (some a = some b) = False := by simp [hab]
  simp only [Matrix2.equalsEpsilonJs, hsome, if_false, hcomp]
  have : ¬ |(σ b).e0 - (σ b).e0| ≤ e := by
    simp only [sub_self, abs_zero]
    exact not_le.mpr he
  simp [this]
  exact he

/-- C10 witness: two distinct addresses holding identical components under
epsilon `-1` compare unequal, by the theorem itself. -/
theorem C10_equalsEpsilon_order_witness :
    Matrix2.equalsEpsilonJs (fun _ => Matrix2.fromComponents 1 2 3 4)
      (some 0) (some 1) (some (-1)) = .ok false :=
  (C10_equalsEpsilon_order (fun _ => Matrix2.fromComponents 1 2 3 4)
    0 1 (-1)).2.2 (by decide) rfl (by norm_num)

/-- A rendered row line contains no newline when the two formatted
components contain none. -/
theorem rowLine_no_newline (fmt : ℚ → String) (p : Cart2)
    (hx : Char.ofNat 10 ∉ (fmt p.x).data) (hy : Char.ofNat 10 ∉ (fmt p.y).data) :
    Char.ofNat 10 ∉ (rowLine fmt p).data := by
  simp +decide [rowLine, String.data_append, List.mem_append, hx, hy]

/-- C9: for every matrix, `toString` is two newline-free lines joined by a
single newline — each line the parenthesized, comma-space-separated
rendering of the corresponding row of `getRow` — together with the concrete
scenario `toString(fromComponents(1,2,3,4)) = "(1, 2)\n(3, 4)"`. -/
theorem C9_toString_format (v : V4) (fmt : ℚ → String)
    (h0 : Char.ofNat 10 ∉ (fmt v.e0).data) (h1 : Char.ofNat 10 ∉ (fmt v.e1).data)
    (h2 : Char.ofNat 10 ∉ (fmt v.e2).data) (h3 : Char.ofNat 10 ∉ (fmt v.e3).data) :
    (Matrix2.toStr fmt v).data =
      (rowLine fmt (Matrix2.getRow v 0)).data ++
        Char.ofNat 10 :: (rowLine fmt (Matrix2.getRow v 1)).data ∧
    Char.ofNat 10 ∉ (rowLine fmt (Matrix2.getRow v 0)).data ∧
    Char.ofNat 10 ∉ (rowLine fmt (Matrix2.getRow v 1)).data ∧
    Matrix2.toStr jsIntegerString (Matrix2.fromComponents 1 2 3 4) =
      "(1, 2)\n(3, 4)" := by
  have hrow0 : Matrix2.getRow v 0 = ⟨v.e0, v.e1⟩ := rfl
  have hrow1 : Matrix2.getRow v 1 = ⟨v.e2, v.e3⟩ := rfl
  refine ⟨?_, ?_, ?_, rfl⟩
  · simp [Matrix2.toStr, rowLine, Matrix2.getRow, String.data_append]
  · rw [hrow0]
    exact rowLine_no_newline fmt ⟨v.e0, v.e1⟩ h0 h1
  · rw [hrow1]
    exact rowLine_no_newline fmt ⟨v.e2, v.e3⟩ h2 h3

/-- C9 witness: the format law at `fromComponents(1,2,3,4)` with the integer
formatter, whose digit strings contain no newline. -/
theorem C9_toString_format_witness :
    (Matrix2.toStr jsIntegerString (Matrix2.fromComponents 1 2 3 4)).data =
      (rowLine jsIntegerString (Matrix2.getRow (Matrix2.fromComponents 1 2 3 4) 0)).data ++
        Char.ofNat 10 ::
          (rowLine jsIntegerString (Matrix2.getRow (Matrix2.fromComponents 1 2 3 4) 1)).data ∧
    Char.ofNat 10 ∉
      (rowLine jsIntegerString (Matrix2.getRow (Matrix2.fromComponents 1 2 3 4) 0)).data ∧
    Char.ofNat 10 ∉
      (rowLine jsIntegerString (Matrix2.getRow (Matrix2.fromComponents 1 2 3 4) 1)).data ∧
    Matrix2.toStr jsIntegerString (Matrix2.fromComponents 1 2 3 4) =
      "(1, 2)\n(3, 4)" :=
  C9_toString_format (Matrix2.fromComponents 1 2 3 4) jsIntegerString
    (by decide) (by decide) (by decide) (by decide)
